import Mathlib

/-!
# Verification of the UserLink MCP Server core

Shallow embedding of the request-scoped credential layer and the
response-normalization layer of the UserLink MCP server, together with
proofs of the specification's claims about them.

The embedding follows the Python sources:
* `src/utils/auth.py` — credential extraction and validation,
* `src/middlewares/headers.py` — header capture into a context variable,
* `src/server.py` — tool handlers (`_get_atlassian_token`,
  `_get_atlassian_cloud_id`, `confluence_search_content`),
* `src/models/jira/issue.py` — `JiraIssue`, its ADF text extractor and
  `to_simplified_dict`,
* `src/models/jira/common.py` — the nested Jira models and the comment
  ADF extractor,
* `src/providers/atlassian/jira.py` — `count_issues_by_jql`,
* `src/providers/microsoft/outlook.py` — `get_emails`.

Python dictionaries of headers are modelled as association lists, Python
`None` as `Option`, raised exceptions as `Except`, and the upstream HTTP
client as an explicit function argument, so that "no upstream request is
made" can be stated as independence from that argument.
-/

namespace UserLink

/-! ## Header maps (Python `dict[str, str]`) -/

/-- A header map: association list from header name to header value.
Models the Python `dict[str, str]` of request headers; lookup returns the
first binding, mirroring the unique keys of a Python dict. -/
abbrev HeaderMap := List (String × String)

/-- Model of `dict.get(k)`: first value bound to `k`, if any. -/
def hget (h : HeaderMap) (k : String) : Option String :=
  (h.find? (fun p => p.1 = k)).map (fun p => p.2)

/-! Python `s.lower()` / `s.strip()` / `x in s` are modelled on the
string's character list so that they compute by structural recursion. -/

/-- Python `s.lower()`. -/
def pyToLower (s : String) : String :=
  ⟨s.data.map Char.toLower⟩

/-- Python `s.strip()`: drop leading and trailing whitespace. -/
def pyStrip (s : String) : String :=
  ⟨((s.data.dropWhile Char.isWhitespace).reverse.dropWhile
      Char.isWhitespace).reverse⟩

/-- Occurrence of `needle` as a contiguous run of `hay`. -/
def containsSub (needle : List Char) : List Char → Bool
  | [] => needle.isEmpty
  | c :: t => needle.isPrefixOf (c :: t) || containsSub needle t

/-- Python `needle in hay` on strings. -/
def pySubstr (needle hay : String) : Bool :=
  containsSub needle.data hay.data

/-- Python `a or b` on two `Optional[str]` values: `a` when `a` is a
truthy (non-`None`, nonempty) string, otherwise `b`. -/
def pyOrStr (a b : Option String) : Option String :=
  match a with
  | some s => if s = "" then b else some s
  | none => b

/-! ## Credential extraction and validation (`src/utils/auth.py`) -/

/-- Header key for the Atlassian token (`ProviderTokenHeader.ATLASSIAN`). -/
def ATLASSIAN_HEADER : String := "x-atlassian-token"

/-- Header key for the Atlassian cloud id
(`ProviderTokenHeader.ATLASSIAN_CLOUD_ID`). -/
def ATLASSIAN_CLOUD_ID_HEADER : String := "x-atlassian-cloud-id"

/-- Model of `extract_atlassian_token`: `headers.get(key) or headers.get(key.upper())`. -/
def extract_atlassian_token (headers : HeaderMap) : Option String :=
  pyOrStr (hget headers ATLASSIAN_HEADER) (hget headers "X-ATLASSIAN-TOKEN")

/-- Model of `extract_atlassian_cloud_id`: same pattern for the cloud-id header. -/
def extract_atlassian_cloud_id (headers : HeaderMap) : Option String :=
  pyOrStr (hget headers ATLASSIAN_CLOUD_ID_HEADER)
    (hget headers "X-ATLASSIAN-CLOUD-ID")

/-- Model of `validate_token`: false for `None`/empty, else trims whitespace and
requires at least 20 characters. -/
def validate_token (token : Option String) : Bool :=
  match token with
  | none => false
  | some s => if s = "" then false else decide (20 ≤ (pyStrip s).length)

/-- Model of `validate_cloud_id`: false for `None`/empty, else trims whitespace and
requires a nonempty remainder. -/
def validate_cloud_id (cloudId : Option String) : Bool :=
  match cloudId with
  | none => false
  | some s => if s = "" then false else decide (0 < (pyStrip s).length)

/-! ## Tool-handler credential helpers (`src/server.py`) -/

/-- Error message raised by `_get_atlassian_token`. -/
def atlassianTokenError : String :=
  "Invalid or missing Atlassian token in request headers (x-atlassian-token)"

/-- Error message raised by `_get_atlassian_cloud_id`. -/
def atlassianCloudIdError : String :=
  "Invalid or missing Atlassian Cloud ID in request headers (x-atlassian-cloud-id)"

/-- Python truthiness of an `Optional[str]`: `not x` holds for `None` and `""`. -/
def pyFalsyStr (x : Option String) : Bool :=
  match x with
  | none => true
  | some s => s = ""

/-- Model of `_get_atlassian_token`: extract, then fail (raise `ValueError`) unless
the token is truthy and validates. -/
def getAtlassianToken (headers : HeaderMap) : Except String String :=
  let token := extract_atlassian_token headers
  if pyFalsyStr token || !validate_token token then
    .error atlassianTokenError
  else
    .ok (token.getD "")

/-- Model of `_get_atlassian_cloud_id`: extract, then fail unless the cloud id is
truthy and validates. -/
def getAtlassianCloudId (headers : HeaderMap) : Except String String :=
  let cloudId := extract_atlassian_cloud_id headers
  if pyFalsyStr cloudId || !validate_cloud_id cloudId then
    .error atlassianCloudIdError
  else
    .ok (cloudId.getD "")

/-- The shape shared by every Jira tool handler in `src/server.py`: obtain
the token, obtain the cloud id, and only then build a client and perform
the upstream call (here an explicit function of the two credentials). An
exception from either helper aborts the call before the upstream is
consulted. -/
def jiraToolInvocation {α : Type} (headers : HeaderMap)
    (upstream : String → String → Except String α) : Except String α := do
  let token ← getAtlassianToken headers
  let cloudId ← getAtlassianCloudId headers
  upstream token cloudId

/-! ## Field projector
(`JiraIssue.to_simplified_dict.should_include_field`, `src/models/jira/issue.py`) -/

/-- The `requested_fields` value of a `JiraIssue`:
`Literal["*all"] | list[str] | None`. -/
inductive RequestedFields where
  | all : RequestedFields
  | names (l : List String) : RequestedFields
  | absent : RequestedFields
deriving DecidableEq

/-- Model of `requested_fields == "*all"`. -/
def RequestedFields.isAllMarker : RequestedFields → Bool
  | .all => true
  | _ => false

/-- Model of `isinstance(requested_fields, list)`. -/
def RequestedFields.isList : RequestedFields → Bool
  | .names _ => true
  | _ => false

/-- Model of `field_name in requested_fields` (false on non-list values, which the
Python never reaches thanks to short-circuiting). -/
def RequestedFields.contains (rf : RequestedFields) (f : String) : Bool :=
  match rf with
  | .names l => l.contains f
  | _ => false

/-- Model of `should_include_field`: the literal disjunction from
`to_simplified_dict` — all-marker, or not a list, or listed by name. -/
def should_include_field (fieldName : String) (rf : RequestedFields) : Bool :=
  rf.isAllMarker || !rf.isList || rf.contains fieldName

/-! ## ADF (Atlassian Document Format) nodes

A node of the rich-text document tree. The Python code walks raw
dictionaries; a node is either not a dictionary (skipped/degraded) or a
dictionary read through `get("type")`, `get("text", "")` and
`get("content", [])`. -/

/-- An item of an ADF `content` list. `dict type? text? content` carries
the three keys the extractors read; `notDict` is any non-dict value. -/
inductive AdfNode where
  | dict (type? : Option String) (text? : Option String)
      (content : List AdfNode) : AdfNode
  | notDict : AdfNode

/-- Model of `item.get("type")`. -/
def AdfNode.getType : AdfNode → Option String
  | .dict t _ _ => t
  | .notDict => none

/-- Model of `item.get("text", "")`. -/
def AdfNode.getText : AdfNode → String
  | .dict _ x _ => x.getD ""
  | .notDict => ""

/-- Model of `item.get("content", [])`. -/
def AdfNode.getContent : AdfNode → List AdfNode
  | .dict _ _ c => c
  | .notDict => []

/-- Model of `isinstance(item, dict)`. -/
def AdfNode.isDict : AdfNode → Bool
  | .dict _ _ _ => true
  | .notDict => false

/-! ## Issue-side ADF extractor
(`JiraIssue._extract_text_from_adf`, `src/models/jira/issue.py`) -/

/-! The fragments appended to `texts` by `extract_from_content` for one
item, in order: the nonempty text of a `"text"` node; for a `"paragraph"`
node its recursively extracted content then a `"\n"`; for the list node
types their recursively extracted content. Non-dict items contribute
nothing. The pure fragment lists replace the Python code's mutable
`texts` accumulator, preserving append order. -/
mutual

/-- Fragments contributed by a single item of a `content` list
(the body of the `for item in items` loop of `extract_from_content`). -/
def itemFragments : AdfNode → List String
  | .notDict => []
  | .dict t x c =>
    (if t = some "text" then
       (if x.getD "" ≠ "" then [x.getD ""] else [])
     else []) ++
    (if t = some "paragraph" then extractFragments c ++ ["\n"] else []) ++
    (if t = some "listItem" ∨ t = some "orderedList" ∨ t = some "bulletList"
     then extractFragments c else [])

/-- Model of `extract_from_content(items)`: the fragments of each item in order. -/
def extractFragments : List AdfNode → List String
  | [] => []
  | item :: rest => itemFragments item ++ extractFragments rest

end

/-- Model of `JiraIssue._extract_text_from_adf`: empty string on non-dict or empty
content, otherwise the fragments joined with single spaces and stripped. -/
def issueExtractTextFromAdf (adf : AdfNode) : String :=
  match adf with
  | .notDict => ""
  | .dict _ _ content =>
    if content.isEmpty then ""
    else pyStrip (String.intercalate " " (extractFragments content))

/-! ## Comment-side ADF extractor
(`JiraComment._extract_text_from_adf`, `src/models/jira/common.py`) -/

/-- The comment/worklog extractor's collected texts: for each top-level
item that is a dict of type `"paragraph"`, the `get("text", "")` of each
of its direct children that is a dict of type `"text"`. No recursion into
lists, no separators, and empty texts are appended as-is. -/
def commentFragments : List AdfNode → List String
  | [] => []
  | item :: rest =>
    (if item.isDict ∧ item.getType = some "paragraph" then
      item.getContent.filterMap (fun textItem =>
        if textItem.isDict ∧ textItem.getType = some "text" then
          some textItem.getText
        else none)
     else []) ++ commentFragments rest

/-- Model of `JiraComment._extract_text_from_adf`: empty string on non-dict or
empty content, otherwise the collected paragraph texts joined with single
spaces — with no final strip. -/
def commentExtractTextFromAdf (adf : AdfNode) : String :=
  match adf with
  | .notDict => ""
  | .dict _ _ content =>
    if content.isEmpty then ""
    else String.intercalate " " (commentFragments content)

/-! ## Credential Context (`src/middlewares/headers.py`)

`current_request_headers` is a Python `contextvars.ContextVar` with
default `{}`. Under asyncio, every tool invocation runs in its own task;
a `set` performed inside a task is visible only to code running in that
task's context, and a task whose context never set the variable reads the
default. The context variable is therefore modelled as a store from task
identifiers to an optional header map: `set` writes the current task's
slot, `get` reads it, falling back to the empty-map default. -/

/-- A logical tool invocation's task identity. -/
abbrev TaskId := Nat

/-- The state of the `current_request_headers` context variable across all
tasks: each task's slot, unset (`none`) until that task performs a `set`. -/
abbrev CtxState := TaskId → Option HeaderMap

/-- No task has set the variable yet. -/
def ctxInit : CtxState := fun _ => none

/-- Model of `current_request_headers.set(m)` performed by task `t`: only `t`'s
slot changes. -/
def ctxSet (t : TaskId) (m : HeaderMap) (s : CtxState) : CtxState :=
  fun u => if u = t then some m else s u

/-- Model of `current_request_headers.get()` performed by task `t`: that task's
value, or the declared default `{}`. -/
def ctxGet (t : TaskId) (s : CtxState) : HeaderMap :=
  (s t).getD []

/-- The header normalization loop of `on_call_tool`: every incoming pair
is stored under its original key and under the lowercased key. -/
def normalizeHeaders (raw : HeaderMap) : HeaderMap :=
  raw.flatMap (fun p => [(p.1, p.2), (pyToLower p.1, p.2)])

/-- Model of `HeadersCaptureMiddleware.on_call_tool` run by task `t`, up to the
point the tool handler `call_next` is entered. `capture` is the outcome
of `get_http_headers()` plus normalization: `some raw` when it returns
normally, `none` when any exception is raised before
`current_request_headers.set` executes. The returned flag records that
`call_next` is invoked — which happens on both paths, because the
`except` branch also calls `call_next`. -/
def onCallTool (t : TaskId) (capture : Option HeaderMap) (s : CtxState) :
    CtxState × Bool :=
  match capture with
  | some raw => (ctxSet t (normalizeHeaders raw) s, true)
  | none => (s, true)

/-- A trace of `set` events from interleaved concurrent invocations: each
event is a middleware header-capture by some task. -/
def runTrace (events : List (TaskId × HeaderMap)) : CtxState :=
  events.foldl (fun s e => (onCallTool e.1 (some e.2) s).1) ctxInit

/-! ## Simplified JSON values and the Jira response models
(`src/models/jira/common.py`, `src/models/jira/issue.py`) -/

/-- A JSON value as produced by the `to_simplified_dict` serializers. -/
inductive JsonVal where
  | str (s : String) : JsonVal
  | bool (b : Bool) : JsonVal
  | arr (items : List JsonVal) : JsonVal
  | obj (fields : List (String × JsonVal)) : JsonVal

/-- Truthiness of an optional string: `some` and nonempty. -/
def optStrTruthy (x : Option String) : Bool :=
  !pyFalsyStr x

/-- Truthiness of an optional dict (`dict | None` field): non-`None` and
nonempty. -/
def optDictTruthy (x : Option (List (String × JsonVal))) : Bool :=
  match x with
  | some l => !l.isEmpty
  | none => false

/-- One conditionally emitted key of a simplified record. -/
def emitIf (c : Bool) (kv : String × JsonVal) : List (String × JsonVal) :=
  if c then [kv] else []

/-- One key emitted from an optional nested model when present and
selected. -/
def emitSome {α : Type} (o : Option α) (c : Bool) (k : String)
    (f : α → JsonVal) : List (String × JsonVal) :=
  match o with
  | some a => if c then [(k, f a)] else []
  | none => []

/-- Model of `JiraUser` (`src/models/jira/common.py`). -/
structure JiraUser where
  account_id : String := ""
  display_name : String := ""
  email : Option String := none
  active : Bool := true
  avatar_url : Option String := none

/-- Model of `JiraUser.to_simplified_dict`: account id and display name, plus the
email when truthy. -/
def JiraUser.to_simplified_dict (u : JiraUser) : List (String × JsonVal) :=
  [("account_id", .str u.account_id), ("display_name", .str u.display_name)]
    ++ emitIf (optStrTruthy u.email) ("email", .str (u.email.getD ""))

/-- Model of `JiraStatus`. -/
structure JiraStatus where
  id : String := "0"
  name : String := ""
  category : Option String := none

/-- Model of `JiraStatus.to_simplified_dict`. -/
def JiraStatus.to_simplified_dict (st : JiraStatus) : List (String × JsonVal) :=
  [("name", .str st.name)]
    ++ emitIf (optStrTruthy st.category) ("category", .str (st.category.getD ""))

/-- Model of `JiraIssueType`. -/
structure JiraIssueType where
  id : String := "0"
  name : String := ""
  subtask : Bool := false

/-- Model of `JiraIssueType.to_simplified_dict`. -/
def JiraIssueType.to_simplified_dict (it : JiraIssueType) :
    List (String × JsonVal) :=
  [("name", .str it.name), ("subtask", .bool it.subtask)]

/-- Model of `JiraPriority`. -/
structure JiraPriority where
  id : String := "0"
  name : String := ""

/-- Model of `JiraPriority.to_simplified_dict`. -/
def JiraPriority.to_simplified_dict (p : JiraPriority) :
    List (String × JsonVal) :=
  [("name", .str p.name)]

/-- Model of `JiraProject`. -/
structure JiraProject where
  id : String := "0"
  key : String := ""
  name : String := ""

/-- Model of `JiraProject.to_simplified_dict`. -/
def JiraProject.to_simplified_dict (pr : JiraProject) :
    List (String × JsonVal) :=
  [("key", .str pr.key), ("name", .str pr.name)]

/-- Model of `JiraComment`. -/
structure JiraComment where
  id : String := "0"
  author : Option JiraUser := none
  body : String := ""
  created : String := ""
  updated : String := ""

/-- Model of `JiraComment.to_simplified_dict`. -/
def JiraComment.to_simplified_dict (c : JiraComment) :
    List (String × JsonVal) :=
  [("id", .str c.id), ("body", .str c.body), ("created", .str c.created)]
    ++ emitSome c.author true "author" (fun u => .obj u.to_simplified_dict)

/-- Model of `JiraWorklog`. -/
structure JiraWorklog where
  id : String := "0"
  author : Option JiraUser := none
  comment : String := ""
  time_spent : String := ""
  time_spent_seconds : Int := 0
  created : String := ""
  started : String := ""

/-- Model of `JiraWorklog.to_simplified_dict`. -/
def JiraWorklog.to_simplified_dict (w : JiraWorklog) :
    List (String × JsonVal) :=
  [("id", .str w.id), ("time_spent", .str w.time_spent),
   ("started", .str w.started)]
    ++ emitSome w.author true "author" (fun u => .obj u.to_simplified_dict)
    ++ emitIf (w.comment != "") ("comment", .str w.comment)

/-- Model of `JiraIssue` (`src/models/jira/issue.py`), with the pydantic defaults. -/
structure JiraIssue where
  id : String := "0"
  key : String := ""
  summary : String := ""
  description : Option String := none
  created : String := ""
  updated : String := ""
  status : Option JiraStatus := none
  issue_type : Option JiraIssueType := none
  priority : Option JiraPriority := none
  assignee : Option JiraUser := none
  reporter : Option JiraUser := none
  labels : List String := []
  components : List String := []
  comments : List JiraComment := []
  worklogs : List JiraWorklog := []
  url : Option String := none
  project : Option JiraProject := none
  duedate : Option String := none
  resolutiondate : Option String := none
  parent : Option (List (String × JsonVal)) := none
  subtasks : List (List (String × JsonVal)) := []
  requested_fields : RequestedFields := .absent

/-- Model of `should_include_field` applied to this issue's `requested_fields`. -/
def JiraIssue.shouldInclude (i : JiraIssue) (f : String) : Bool :=
  should_include_field f i.requested_fields

/-- The value emitted under `"assignee"` when that field is selected: the
assignee's simplified dict, or the `"Unassigned"` placeholder when the
relation is absent. -/
def JiraIssue.assigneeValue (i : JiraIssue) : JsonVal :=
  match i.assignee with
  | some u => .obj u.to_simplified_dict
  | none => .obj [("display_name", .str "Unassigned")]

/-- Model of `JiraIssue.to_simplified_dict`: the `id`/`key` identifiers followed by
every conditional emission, in the order of the Python method. -/
def JiraIssue.to_simplified_dict (i : JiraIssue) : List (String × JsonVal) :=
  [("id", .str i.id), ("key", .str i.key)]
  ++ emitIf (i.shouldInclude "summary") ("summary", .str i.summary)
  ++ emitIf (optStrTruthy i.url && i.shouldInclude "url")
       ("url", .str (i.url.getD ""))
  ++ emitIf (optStrTruthy i.description && i.shouldInclude "description")
       ("description", .str (i.description.getD ""))
  ++ emitSome i.status (i.shouldInclude "status") "status"
       (fun st => .obj st.to_simplified_dict)
  ++ emitSome i.issue_type (i.shouldInclude "issuetype") "issue_type"
       (fun it => .obj it.to_simplified_dict)
  ++ emitSome i.priority (i.shouldInclude "priority") "priority"
       (fun p => .obj p.to_simplified_dict)
  ++ emitSome i.project (i.shouldInclude "project") "project"
       (fun pr => .obj pr.to_simplified_dict)
  ++ emitIf (optStrTruthy i.duedate && i.shouldInclude "duedate")
       ("duedate", .str (i.duedate.getD ""))
  ++ emitIf (optStrTruthy i.resolutiondate && i.shouldInclude "resolutiondate")
       ("resolutiondate", .str (i.resolutiondate.getD ""))
  ++ emitIf (i.shouldInclude "assignee") ("assignee", i.assigneeValue)
  ++ emitSome i.reporter (i.shouldInclude "reporter") "reporter"
       (fun u => .obj u.to_simplified_dict)
  ++ emitIf (!i.labels.isEmpty && i.shouldInclude "labels")
       ("labels", .arr (i.labels.map .str))
  ++ emitIf (!i.components.isEmpty && i.shouldInclude "components")
       ("components", .arr (i.components.map .str))
  ++ emitIf ((i.created != "") && i.shouldInclude "created")
       ("created", .str i.created)
  ++ emitIf ((i.updated != "") && i.shouldInclude "updated")
       ("updated", .str i.updated)
  ++ emitIf (!i.comments.isEmpty && i.shouldInclude "comment")
       ("comments", .arr (i.comments.map (fun c => .obj c.to_simplified_dict)))
  ++ emitIf (!i.worklogs.isEmpty && i.shouldInclude "worklog")
       ("worklogs", .arr (i.worklogs.map (fun w => .obj w.to_simplified_dict)))
  ++ emitIf (optDictTruthy i.parent && i.shouldInclude "parent")
       ("parent", .obj (i.parent.getD []))
  ++ emitIf (!i.subtasks.isEmpty && i.shouldInclude "subtasks")
       ("subtasks", .arr (i.subtasks.map .obj))

/-! ## Count-by-JQL pagination
(`JiraService.count_issues_by_jql`, `src/providers/atlassian/jira.py`) -/

/-- One page of a JQL response, as read by the loop: `get("issues", [])`
(each issue represented by its `get("key")` value) and `get("total", 0)`. -/
structure JqlPage where
  issues : List (Option String)
  total? : Option Int

/-- The page size used by the loop (`max_results_per_page = 100`). -/
def MAX_RESULTS_PER_PAGE : Nat := 100

/-- The loop's safety cap (`max_iterations = 10000`). -/
def MAX_ITERATIONS : Nat := 10000

/-- The result assembled by `count_issues_by_jql`, plus the number of
page requests issued (for stating the pagination claims). -/
structure CountResult where
  count : Nat
  total_available : Int
  issue_keys : List (Option String)
  requests : Nat

/-- The `while iteration_count < max_iterations` loop. `fuel` is the
number of iterations still allowed; each iteration issues one page
request at `startAt`, extends the accumulator, records the reported
total, and exits when the page is empty or the accumulator has reached
the reported total. Returns the accumulated issues, the last reported
total (`none` if no iteration ran) and the number of requests issued. -/
def countLoop (upstream : Nat → JqlPage) :
    Nat → Nat → List (Option String) → Option Int → Nat →
    List (Option String) × Option Int × Nat
  | 0, _, acc, lastTotal, reqs => (acc, lastTotal, reqs)
  | fuel + 1, startAt, acc, _, reqs =>
    let page := upstream startAt
    let acc' := acc ++ page.issues
    let total := page.total?.getD 0
    if page.issues.length = 0 ∨ total ≤ (acc'.length : Int) then
      (acc', some total, reqs + 1)
    else
      countLoop upstream fuel (startAt + MAX_RESULTS_PER_PAGE) acc'
        (some total) (reqs + 1)

/-- Model of `JiraService.count_issues_by_jql` against an abstract upstream: run
the loop from `start_at = 0` with an empty accumulator, then build the
`{count, total_available, issue_keys}` mapping. -/
def count_issues_by_jql (upstream : Nat → JqlPage) : CountResult :=
  let r := countLoop upstream MAX_ITERATIONS 0 [] none 0
  { count := r.1.length
    total_available := (r.2.1).getD (r.1.length : Int)
    issue_keys := r.1
    requests := r.2.2 }

/-! ## Confluence fallback search
(`confluence_search_content`, `src/server.py`) -/

/-- The CQL operator probes of `confluence_search_content`:
`any(x in query for x in ["=", "~", ">", "<", " AND ", " OR ",
"currentUser()"])`. -/
def hasCqlOperator (q : String) : Bool :=
  ["=", "~", ">", "<", " AND ", " OR ", "currentUser()"].any
    (fun x => pySubstr x q)

/-- The free-text "site search" query form. -/
def siteSearchQuery (q : String) : String :=
  "siteSearch ~ \"" ++ q ++ "\""

/-- The literal text-match query form. -/
def textSearchQuery (q : String) : String :=
  "text ~ \"" ++ q ++ "\""

/-- Model of `confluence_search_content` against an abstract
`service.search(query, limit)` that may raise (`Except.error`). Returns
the single outcome the caller sees — the final query string paired with
the pages, or the propagated error — together with the list of
`(query, limit)` upstream attempts actually issued, in order. -/
def confluence_search_content {R : Type}
    (search : String → Nat → Except String R) (cql : String) (limit : Nat) :
    Except String (String × R) × List (String × Nat) :=
  if cql ≠ "" ∧ hasCqlOperator cql = false then
    let q1 := siteSearchQuery cql
    match search q1 limit with
    | .ok pages => (.ok (q1, pages), [(q1, limit)])
    | .error _ =>
      let q2 := textSearchQuery cql
      match search q2 limit with
      | .ok pages => (.ok (q2, pages), [(q1, limit), (q2, limit)])
      | .error e => (.error e, [(q1, limit), (q2, limit)])
  else
    match search cql limit with
    | .ok pages => (.ok (cql, pages), [(cql, limit)])
    | .error e => (.error e, [(cql, limit)])

/-! ## Outlook email listing
(`OutlookService.get_emails`, `src/providers/microsoft/outlook.py`) -/

/-- The request sent to the Microsoft Graph messages endpoint. -/
structure EmailRequest where
  endpoint : String
  top : Int
  orderby : String
  select : String
  filter? : Option String
deriving DecidableEq

/-- The well-known folder name mapping of `get_emails`. -/
def folderMapping (f : String) : String :=
  if f = "inbox" then "inbox"
  else if f = "sent" then "sentitems"
  else if f = "drafts" then "drafts"
  else if f = "deleted" then "deleteditems"
  else if f = "junk" then "junkemail"
  else f

/-- The endpoint chosen from the (truthy) folder argument. -/
def folderEndpoint (folder : Option String) : String :=
  match folder with
  | some f =>
    if f = "" then "/v1.0/me/messages"
    else "/v1.0/me/mailFolders/" ++ folderMapping (pyToLower f) ++ "/messages"
  | none => "/v1.0/me/messages"

/-- The `$filter` predicates built by `get_emails`: one from a truthy
`days_back` (via the call-time timestamp formatter `dateStr`) and one
from a non-`None` `is_read`. The `from_address` and `subject_contains`
parameters never reach this list. -/
def emailFilters (days_back : Option Int) (is_read : Option Bool)
    (dateStr : Int → String) : List String :=
  (match days_back with
   | some d => if d ≠ 0 then ["receivedDateTime ge " ++ dateStr d] else []
   | none => []) ++
  (match is_read with
   | some b => ["isRead eq " ++ (if b then "true" else "false")]
   | none => [])

/-- The request constructed by `get_emails`. `dateStr` abstracts the
`datetime.utcnow() - timedelta(days=·)` timestamp string computed at call
time. The sender and subject parameters are accepted, as in the Python
signature, and ignored, as in the Python body. -/
def outlookGetEmailsRequest (top : Int) (folder : Option String)
    (from_address : Option String) (subject_contains : Option String)
    (days_back : Option Int) (is_read : Option Bool)
    (dateStr : Int → String) : EmailRequest :=
  let filters := emailFilters days_back is_read dateStr
  { endpoint := folderEndpoint folder
    top := top
    orderby := "receivedDateTime desc"
    select := "id,subject,from,receivedDateTime,isRead,hasAttachments,bodyPreview"
    filter? :=
      if filters.isEmpty then none
      else some (String.intercalate " and " filters) }

/-- Model of `get_emails` returns the upstream response for the constructed
request unchanged: no client-side post-filtering. -/
def outlookGetEmails {R : Type} (upstream : EmailRequest → R) (top : Int)
    (folder from_address subject_contains : Option String)
    (days_back : Option Int) (is_read : Option Bool)
    (dateStr : Int → String) : R :=
  upstream (outlookGetEmailsRequest top folder from_address subject_contains
    days_back is_read dateStr)

/-! # Theorems -/

/-- C3: For every field name and every field-selection value, the
field-projection predicate returns true when the selection is the `"*all"`
marker, true when the selection is absent or (more generally) not a list,
and, when the selection is a list of names, true exactly when the field
name is a member of that list. The predicate is a total Lean function
(pure, never fails) by construction. -/
theorem c3_field_projector_semantics (f : String) :
    should_include_field f .all = true ∧
    should_include_field f .absent = true ∧
    (∀ rf : RequestedFields, rf.isList = false →
      should_include_field f rf = true) ∧
    (∀ ns : List String,
      (should_include_field f (.names ns) = true ↔ f ∈ ns)) := by
  refine ⟨rfl, rfl, fun rf h => ?_, fun ns => ?_⟩
  · cases rf <;> simp_all [should_include_field, RequestedFields.isAllMarker,
      RequestedFields.isList]
  · simp [should_include_field, RequestedFields.isAllMarker,
      RequestedFields.isList, RequestedFields.contains]

/-- C3 witness: concrete evaluations of the projector, discharging the
`isList = false` hypothesis at the absent selection. -/
theorem c3_field_projector_semantics_witness :
    should_include_field "summary" .absent = true ∧
    (should_include_field "status" (.names ["summary", "status"]) = true ↔
      "status" ∈ ["summary", "status"]) :=
  ⟨(c3_field_projector_semantics "summary").2.2.1 .absent rfl,
   (c3_field_projector_semantics "status").2.2.2 ["summary", "status"]⟩

/-- C10: When capturing or normalizing the inbound headers raises, the
middleware's `except` branch still invokes the tool handler and the
context variable keeps its prior value for that invocation; the handler
then fails (if at all) at credential extraction, as with the no-call
default empty map. -/
theorem c10_capture_failure_still_invokes_handler (t : TaskId)
    (s : CtxState) (raw : HeaderMap) :
    (onCallTool t none s).2 = true ∧
    (onCallTool t none s).1 = s ∧
    (onCallTool t (some raw) s).2 = true ∧
    getAtlassianToken (ctxGet t ctxInit) = .error atlassianTokenError := by
  exact ⟨rfl, rfl, rfl, rfl⟩

/-- C9: The sender-address and subject-substring parameters of the
email-listing call contribute nothing to the upstream request, and the
response is the upstream's answer unchanged (no client-side
post-filtering), so supplying them returns the same results as omitting
them; the `$filter` value is built from the date-window and read-status
parameters alone. -/
theorem c9_sender_subject_filters_ignored {R : Type}
    (upstream : EmailRequest → R) (top : Int)
    (folder from_address subject_contains : Option String)
    (days_back : Option Int) (is_read : Option Bool)
    (dateStr : Int → String) :
    outlookGetEmails upstream top folder from_address subject_contains
        days_back is_read dateStr =
      outlookGetEmails upstream top folder none none days_back is_read
        dateStr ∧
    outlookGetEmails upstream top folder from_address subject_contains
        days_back is_read dateStr =
      upstream (outlookGetEmailsRequest top folder from_address
        subject_contains days_back is_read dateStr) ∧
    (outlookGetEmailsRequest top folder from_address subject_contains
        days_back is_read dateStr).filter? =
      (if (emailFilters days_back is_read dateStr).isEmpty then none
       else some (String.intercalate " and "
         (emailFilters days_back is_read dateStr))) := by
  exact ⟨rfl, rfl, rfl⟩

/-- The claim C6 example input
`{"type":"paragraph","content":[{"type":"text","text":"Hello"},{"type":"text","text":"world"}]}`. -/
def helloWorldAdf : AdfNode :=
  .dict (some "paragraph") none
    [.dict (some "text") (some "Hello") [],
     .dict (some "text") (some "world") []]

/-- C6: The rich-text extractor degrades malformed (non-dict) and empty
input to the empty string; a `"text"` node contributes its literal text;
a `"paragraph"` node's content is recursed into with a newline separator
appended after it; the three list node types are recursed into without
separators; non-dict items and unrecognized node types are skipped; the
output is the collected fragments joined by single spaces with
surrounding whitespace stripped; and the example paragraph yields
`"Hello world"`. -/
theorem c6_issue_adf_extractor :
    issueExtractTextFromAdf .notDict = "" ∧
    (∀ t x, issueExtractTextFromAdf (.dict t x []) = "") ∧
    (∀ t x content, content ≠ [] →
      issueExtractTextFromAdf (.dict t x content) =
        pyStrip (String.intercalate " " (extractFragments content))) ∧
    (∀ c rest s, s ≠ "" →
      extractFragments (.dict (some "text") (some s) c :: rest) =
        s :: extractFragments rest) ∧
    (∀ x c rest,
      extractFragments (.dict (some "paragraph") x c :: rest) =
        (extractFragments c ++ ["\n"]) ++ extractFragments rest) ∧
    (∀ ty x c rest,
      ty = "listItem" ∨ ty = "orderedList" ∨ ty = "bulletList" →
      extractFragments (.dict (some ty) x c :: rest) =
        extractFragments c ++ extractFragments rest) ∧
    (∀ ty x c rest,
      ty ∉ ["text", "paragraph", "listItem", "orderedList", "bulletList"] →
      extractFragments (.dict (some ty) x c :: rest) =
        extractFragments rest) ∧
    (∀ rest, extractFragments (.notDict :: rest) = extractFragments rest) ∧
    issueExtractTextFromAdf helloWorldAdf = "Hello world" := by
  refine ⟨rfl, fun t x => rfl, fun t x content h => ?_, fun c rest s h => ?_,
    fun x c rest => ?_, fun ty x c rest h => ?_, fun ty x c rest h => ?_,
    fun rest => rfl, by decide⟩
  · simp [issueExtractTextFromAdf, List.isEmpty_iff, h]
  · simp [extractFragments, itemFragments, h]
  · simp [extractFragments, itemFragments]
  · rcases h with h | h | h <;> subst h <;>
      simp [extractFragments, itemFragments]
  · simp only [List.mem_cons, List.mem_singleton, not_or] at h
    obtain ⟨h1, h2, h3, h4, h5⟩ := h
    simp [extractFragments, itemFragments, h1, h2, h3, h4, h5]

/-- C6 witness: the text-node, nonempty-content and unrecognized-type
clauses at concrete inputs. -/
theorem c6_issue_adf_extractor_witness :
    extractFragments [AdfNode.dict (some "text") (some "Hi") []] =
      "Hi" :: extractFragments [] ∧
    issueExtractTextFromAdf (.dict none none [.notDict]) =
      pyStrip (String.intercalate " " (extractFragments [AdfNode.notDict])) ∧
    extractFragments [AdfNode.dict (some "mention") none []] =
      extractFragments [] :=
  ⟨c6_issue_adf_extractor.2.2.2.1 [] [] "Hi" (by decide),
   c6_issue_adf_extractor.2.2.1 none none [.notDict] (by simp),
   c6_issue_adf_extractor.2.2.2.2.2.2.1 "mention" none [] [] (by decide)⟩

/-- A nested bullet-list document: rich text a comment body can contain. -/
def nestedListAdf : AdfNode :=
  .dict (some "doc") none
    [.dict (some "bulletList") none
      [.dict (some "listItem") none
        [.dict (some "paragraph") none
          [.dict (some "text") (some "Hi") []]]]]

/-- C7 counterexample: the comment/worklog extractor is not the same
traversal as the issue-description extractor — on a document whose
content is a bullet list, the description extractor (which recurses into
lists) yields `"Hi"` while the comment extractor (which does not) yields
`""`. -/
theorem c7_counterexample_list_content :
    issueExtractTextFromAdf nestedListAdf = "Hi" ∧
    commentExtractTextFromAdf nestedListAdf = "" ∧
    issueExtractTextFromAdf nestedListAdf ≠
      commentExtractTextFromAdf nestedListAdf := by
  refine ⟨by decide, by decide, by decide⟩

/-- C7 (amended): comment and worklog rich text is processed by a
different, shallower traversal than the description extractor: it
collects only the `"text"` children directly inside top-level
`"paragraph"` nodes, joins them with single spaces, and applies no
newline separators, no stripping, and no recursion into lists — in
particular it returns `""` for any document with no top-level paragraph
node, while agreeing with the description extractor on a simple
single-paragraph document such as the spec's Hello/world example. -/
theorem c7_comment_extractor_amended :
    (∀ t x content,
      (∀ item ∈ content, item.getType ≠ some "paragraph") →
      commentExtractTextFromAdf (.dict t x content) = "") ∧
    (∀ x ps, commentFragments [AdfNode.dict (some "paragraph") x ps] =
      ps.filterMap (fun ti =>
        if ti.isDict ∧ ti.getType = some "text" then some ti.getText
        else none)) ∧
    commentExtractTextFromAdf
        (.dict (some "doc") none [helloWorldAdf]) = "Hello world" ∧
    issueExtractTextFromAdf
        (.dict (some "doc") none [helloWorldAdf]) = "Hello world" := by
  refine ⟨fun t x content h => ?_, fun x ps => ?_, by decide, by decide⟩
  · have hf : commentFragments content = [] := by
      induction content with
      | nil => rfl
      | cons item rest ih =>
        have hi := h item (List.mem_cons_self item rest)
        have hr : commentFragments rest = [] :=
          ih (fun i hmem => h i (List.mem_cons_of_mem item hmem))
        simp [commentFragments, hi, hr]
    cases content with
    | nil => rfl
    | cons a l =>
      simp only [commentExtractTextFromAdf, List.isEmpty_cons, hf]
      decide
  · simp [commentFragments, AdfNode.isDict, AdfNode.getType,
      AdfNode.getContent]

/-- C7 witness for the amended theorem: the no-top-level-paragraph clause
at a concrete bullet-list document. -/
theorem c7_comment_extractor_amended_witness :
    commentExtractTextFromAdf
      (.dict (some "doc") none
        [.dict (some "bulletList") none
          [.dict (some "paragraph") none
            [.dict (some "text") (some "Hi") []]]]) = "" :=
  c7_comment_extractor_amended.1 (some "doc") none _ (by decide)

/-- Running a trace of capture events from an arbitrary starting state. -/
def runTraceFrom (s : CtxState) (events : List (TaskId × HeaderMap)) :
    CtxState :=
  events.foldl (fun s e => (onCallTool e.1 (some e.2) s).1) s

/-- Helper: a trace touching only other tasks leaves a task's slot alone. -/
theorem runTraceFrom_untouched (t : TaskId)
    (events : List (TaskId × HeaderMap)) (s : CtxState)
    (h : t ∉ events.map Prod.fst) : runTraceFrom s events t = s t := by
  induction events generalizing s with
  | nil => rfl
  | cons e rest ih =>
    simp only [List.map_cons, List.mem_cons, not_or] at h
    have : runTraceFrom s (e :: rest) = runTraceFrom
        (ctxSet e.1 (normalizeHeaders e.2) s) rest := rfl
    rw [this, ih _ h.2, ctxSet]
    simp [h.1]

/-- Helper: splitting a trace at an event. -/
theorem runTraceFrom_append (s : CtxState)
    (l₁ l₂ : List (TaskId × HeaderMap)) :
    runTraceFrom s (l₁ ++ l₂) = runTraceFrom (runTraceFrom s l₁) l₂ :=
  List.foldl_append _ _ _ _

/-- C1: Credential-context isolation. Any interleaving of concurrent
invocations is a trace of middleware capture events, each performed by
its invocation's task. If task `A` captures `rawA` and every other event
of the trace belongs to a different task, then a read during `A`'s
execution (i.e. after its capture, with arbitrarily many events of other
tasks before and after) yields exactly the normalized map captured for
`A` — never another invocation's map — and a fresh task that never
captured reads the empty-map default, never a stale map. -/
theorem c1_credential_context_isolation :
    (∀ (pre post : List (TaskId × HeaderMap)) (A : TaskId)
       (rawA : HeaderMap), A ∉ (pre ++ post).map Prod.fst →
       ctxGet A (runTrace (pre ++ (A, rawA) :: post)) =
         normalizeHeaders rawA) ∧
    (∀ (events : List (TaskId × HeaderMap)) (t : TaskId),
       t ∉ events.map Prod.fst → ctxGet t (runTrace events) = []) := by
  constructor
  · intro pre post A rawA hA
    simp only [List.map_append, List.mem_append, not_or] at hA
    have h1 : runTrace (pre ++ (A, rawA) :: post) =
        runTraceFrom (runTraceFrom ctxInit pre) ((A, rawA) :: post) :=
      runTraceFrom_append ctxInit pre ((A, rawA) :: post)
    have h2 : runTraceFrom (runTraceFrom ctxInit pre) ((A, rawA) :: post) =
        runTraceFrom (ctxSet A (normalizeHeaders rawA)
          (runTraceFrom ctxInit pre)) post := rfl
    rw [ctxGet, h1, h2, runTraceFrom_untouched A post _ hA.2, ctxSet]
    simp
  · intro events t ht
    rw [ctxGet, runTrace, show events.foldl
        (fun s e => (onCallTool e.1 (some e.2) s).1) ctxInit =
        runTraceFrom ctxInit events from rfl,
      runTraceFrom_untouched t events ctxInit ht]
    rfl

/-- C1 witness: two interleaved invocations with distinct maps — task 0
reads its own captured map even though task 1 captured in between, and a
fresh task 7 that never captured reads the empty default. -/
theorem c1_credential_context_isolation_witness :
    ctxGet 0 (runTrace [(1, [("x-other", "B")]),
        (0, [("X-Atlassian-Token", "A")]), (1, [("x-other", "B2")])]) =
      normalizeHeaders [("X-Atlassian-Token", "A")] ∧
    ctxGet 7 (runTrace [(1, [("x-other", "B")])]) = [] :=
  ⟨c1_credential_context_isolation.1 [(1, [("x-other", "B")])]
      [(1, [("x-other", "B2")])] 0 [("X-Atlassian-Token", "A")] (by decide),
   c1_credential_context_isolation.2 [(1, [("x-other", "B")])] 7
      (by decide)⟩

/-- The claim C2 condition on the token: the header map is missing the
credential, or the token is shorter than 20 characters after trimming. -/
def tokenMissingOrShort (h : HeaderMap) : Bool :=
  match extract_atlassian_token h with
  | none => true
  | some s => decide ((pyStrip s).length < 20)

/-- The claim C2 condition on the tenant identifier: missing, or empty
after trimming. -/
def cloudIdMissingOrEmpty (h : HeaderMap) : Bool :=
  match extract_atlassian_cloud_id h with
  | none => true
  | some s => decide ((pyStrip s).length = 0)

/-- Helper: the claim-side token condition is exactly validation failure. -/
theorem validate_token_eq_false_iff (h : HeaderMap) :
    validate_token (extract_atlassian_token h) = false ↔
      tokenMissingOrShort h = true := by
  cases hx : extract_atlassian_token h with
  | none => simp [validate_token, tokenMissingOrShort, hx]
  | some s =>
    simp only [validate_token, tokenMissingOrShort, hx]
    by_cases hs : s = ""
    · subst hs
      simp [pyStrip]
    · simp [hs]

/-- Helper: the claim-side cloud-id condition is exactly validation
failure. -/
theorem validate_cloud_id_eq_false_iff (h : HeaderMap) :
    validate_cloud_id (extract_atlassian_cloud_id h) = false ↔
      cloudIdMissingOrEmpty h = true := by
  cases hx : extract_atlassian_cloud_id h with
  | none => simp [validate_cloud_id, cloudIdMissingOrEmpty, hx]
  | some s =>
    simp only [validate_cloud_id, cloudIdMissingOrEmpty, hx]
    by_cases hs : s = ""
    · subst hs
      simp [pyStrip]
    · simp [hs]

/-- Helper: a falsy extracted token is also a short one after trimming. -/
theorem pyFalsy_token_cases (h : HeaderMap)
    (hf : pyFalsyStr (extract_atlassian_token h) = true) :
    tokenMissingOrShort h = true := by
  cases hx : extract_atlassian_token h with
  | none => simp [tokenMissingOrShort, hx]
  | some s =>
    rw [hx] at hf
    simp only [pyFalsyStr, decide_eq_true_eq] at hf
    subst hf
    simp [tokenMissingOrShort, hx, pyStrip]

/-- C2: A Jira tool invocation whose header map is missing the Atlassian
token, or whose token trims to fewer than 20 characters, fails with the
descriptive error naming `x-atlassian-token`; with a valid token but a
missing/blank tenant identifier it fails with the error naming
`x-atlassian-cloud-id`. In both cases the result is the same for every
possible upstream — no upstream HTTP request is made — and each error
message contains its offending header name as a substring. -/
theorem c2_invalid_credentials_fail_before_upstream (h : HeaderMap) :
    (tokenMissingOrShort h = true → ∀ {α : Type}
      (u : String → String → Except String α),
      jiraToolInvocation h u = .error atlassianTokenError) ∧
    (tokenMissingOrShort h = false → cloudIdMissingOrEmpty h = true →
      ∀ {α : Type} (u : String → String → Except String α),
      jiraToolInvocation h u = .error atlassianCloudIdError) ∧
    pySubstr ATLASSIAN_HEADER atlassianTokenError = true ∧
    pySubstr ATLASSIAN_CLOUD_ID_HEADER atlassianCloudIdError = true := by
  have hdef : ∀ {α : Type} (u : String → String → Except String α),
      jiraToolInvocation h u = (getAtlassianToken h).bind (fun token =>
        (getAtlassianCloudId h).bind (fun cloudId => u token cloudId)) :=
    fun _ => rfl
  refine ⟨fun ht α u => ?_, fun ht hc α u => ?_, by decide, by decide⟩
  · have hv : validate_token (extract_atlassian_token h) = false :=
      (validate_token_eq_false_iff h).mpr ht
    have hg : getAtlassianToken h = .error atlassianTokenError := by
      simp [getAtlassianToken, hv]
    rw [hdef, hg]
    rfl
  · have hvt : validate_token (extract_atlassian_token h) = true := by
      cases hvt : validate_token (extract_atlassian_token h) with
      | false => rw [(validate_token_eq_false_iff h).mp hvt] at ht; cases ht
      | true => rfl
    have hft : pyFalsyStr (extract_atlassian_token h) = false := by
      cases hft : pyFalsyStr (extract_atlassian_token h) with
      | false => rfl
      | true => rw [pyFalsy_token_cases h hft] at ht; cases ht
    have hvc : validate_cloud_id (extract_atlassian_cloud_id h) = false :=
      (validate_cloud_id_eq_false_iff h).mpr hc
    have hg1 : getAtlassianToken h =
        .ok ((extract_atlassian_token h).getD "") := by
      simp [getAtlassianToken, hvt, hft]
    have hg2 : getAtlassianCloudId h = .error atlassianCloudIdError := by
      simp [getAtlassianCloudId, hvc]
    rw [hdef, hg1, hg2]
    rfl

/-- C2 witness: a header map with a too-short token fails with the
token error under a concrete upstream; a map with a valid token but no
cloud id fails with the cloud-id error. -/
theorem c2_invalid_credentials_fail_before_upstream_witness :
    jiraToolInvocation [("x-atlassian-token", "short")]
      (fun _ _ => Except.ok (0 : Nat)) = .error atlassianTokenError ∧
    jiraToolInvocation [("x-atlassian-token", "AAAAAAAAAAAAAAAAAAAAmore")]
      (fun _ _ => Except.ok (0 : Nat)) = .error atlassianCloudIdError :=
  ⟨(c2_invalid_credentials_fail_before_upstream
        [("x-atlassian-token", "short")]).1 (by decide) _,
   (c2_invalid_credentials_fail_before_upstream
        [("x-atlassian-token", "AAAAAAAAAAAAAAAAAAAAmore")]).2.1
      (by decide) (by decide) _⟩

/-- A trivial always-succeeding Confluence upstream. -/
def alwaysOkSearch : String → Nat → Except String Nat :=
  fun _ _ => .ok 0

/-- C8 counterexample: the empty input string contains no query-language
operator, yet the (single) upstream attempt uses the raw empty query, not
the free-text site-search form — the claim's universal quantification
fails at the empty query. -/
theorem c8_counterexample_empty_query :
    hasCqlOperator "" = false ∧
    (confluence_search_content alwaysOkSearch "" 10).2 = [("", 10)] ∧
    ("" : String) ≠ siteSearchQuery "" := by
  refine ⟨by decide, by decide, by decide⟩

/-- C8 (amended): for every wiki content search whose input string is
nonempty and contains no query-language operator, the first upstream
attempt uses the free-text site-search form; exactly when that attempt
fails, a second attempt is made with the literal text-match form; both
attempts use the same limit; and the caller sees a single outcome — on
fallback, exactly the outcome of the second attempt. -/
theorem c8_fallback_search_amended {R : Type}
    (search : String → Nat → Except String R) (cql : String) (limit : Nat)
    (hne : cql ≠ "") (hop : hasCqlOperator cql = false) :
    (∀ pages, search (siteSearchQuery cql) limit = .ok pages →
      confluence_search_content search cql limit =
        (.ok (siteSearchQuery cql, pages), [(siteSearchQuery cql, limit)])) ∧
    (∀ e, search (siteSearchQuery cql) limit = .error e →
      (confluence_search_content search cql limit).2 =
        [(siteSearchQuery cql, limit), (textSearchQuery cql, limit)] ∧
      (confluence_search_content search cql limit).1 =
        (search (textSearchQuery cql) limit).map
          (fun r => (textSearchQuery cql, r))) := by
  constructor
  · intro pages hok
    rw [confluence_search_content, if_pos ⟨hne, hop⟩]
    simp only [hok]
  · intro e herr
    rw [confluence_search_content, if_pos ⟨hne, hop⟩]
    simp only [herr]
    cases h2 : search (textSearchQuery cql) limit <;> simp [h2, Except.map]

/-- C8 witness: a concrete upstream that fails the site-search attempt on
the operator-free query `"hello"` issues exactly the two attempts with
the same limit, and the caller's single outcome is the text-match
attempt's result. -/
theorem c8_fallback_search_amended_witness :
    (confluence_search_content
        (fun q _ => if q = siteSearchQuery "hello" then
          (.error "boom" : Except String Nat) else .ok 7) "hello" 5).2 =
      [(siteSearchQuery "hello", 5), (textSearchQuery "hello", 5)] ∧
    (confluence_search_content
        (fun q _ => if q = siteSearchQuery "hello" then
          (.error "boom" : Except String Nat) else .ok 7) "hello" 5).1 =
      ((fun (q : String) (_ : Nat) => if q = siteSearchQuery "hello" then
          (.error "boom" : Except String Nat) else .ok 7)
        (textSearchQuery "hello") 5).map
          (fun r => (textSearchQuery "hello", r)) :=
  (c8_fallback_search_amended
    (fun q _ => if q = siteSearchQuery "hello" then
      (.error "boom" : Except String Nat) else .ok 7) "hello" 5
    (by decide) (by decide)).2 "boom" (by rfl)

/-! ## C5: count-by-JQL pagination -/

/-- The consistent fake upstream of the claim: 250 matching issues
delivered as pages of 100, 100 and 50, each page reporting
`total = 250`. -/
def consistentUpstream : Nat → JqlPage := fun startAt =>
  if startAt = 0 then ⟨List.replicate 100 (some "K"), some 250⟩
  else if startAt = 100 then ⟨List.replicate 100 (some "K"), some 250⟩
  else if startAt = 200 then ⟨List.replicate 50 (some "K"), some 250⟩
  else ⟨[], some 250⟩

/-- Helper: the loop issues at most `fuel` further page requests. -/
theorem countLoop_requests_le (upstream : Nat → JqlPage) (fuel : Nat) :
    ∀ (startAt : Nat) (acc : List (Option String)) (lastTotal : Option Int)
      (reqs : Nat),
      (countLoop upstream fuel startAt acc lastTotal reqs).2.2 ≤
        reqs + fuel := by
  induction fuel with
  | zero => intro startAt acc lastTotal reqs; simp [countLoop]
  | succ n ih =>
    intro startAt acc lastTotal reqs
    rw [countLoop]
    split
    · simp
    · calc (countLoop upstream n (startAt + MAX_RESULTS_PER_PAGE)
            (acc ++ (upstream startAt).issues)
            (some ((upstream startAt).total?.getD 0)) (reqs + 1)).2.2
          ≤ (reqs + 1) + n := ih _ _ _ _
        _ ≤ reqs + (n + 1) := by omega

set_option maxRecDepth 4000

/-- C5: Against the consistent fake upstream (total 250 in pages of at
most 100) the count operation issues exactly 3 page requests and returns
count 250, total_available 250 and 250 issue identifiers; and against
every upstream whatsoever — including one whose reported total never
lets the count catch up — the loop issues at most the configured cap of
10000 page requests (and terminates, being a total function). -/
theorem c5_count_pagination :
    (count_issues_by_jql consistentUpstream).requests = 3 ∧
    (count_issues_by_jql consistentUpstream).count = 250 ∧
    (count_issues_by_jql consistentUpstream).total_available = 250 ∧
    (count_issues_by_jql consistentUpstream).issue_keys.length = 250 ∧
    (∀ upstream : Nat → JqlPage,
      (count_issues_by_jql upstream).requests ≤ MAX_ITERATIONS) := by
  refine ⟨by decide, by decide, by decide, by decide, fun upstream => ?_⟩
  have h := countLoop_requests_le upstream MAX_ITERATIONS 0 [] none 0
  simpa [count_issues_by_jql] using h

/-! ## C4: empty/default field omission in `to_simplified_dict` -/

/-- Helper: membership in a conditionally emitted singleton. -/
theorem mem_emitIf {c : Bool} {kv p : String × JsonVal} :
    p ∈ emitIf c kv ↔ c = true ∧ p = kv := by
  cases c <;> simp [emitIf]

/-- Helper: membership in an optional-model emission. -/
theorem mem_emitSome {α : Type} {o : Option α} {c : Bool} {k : String}
    {f : α → JsonVal} {p : String × JsonVal} :
    p ∈ emitSome o c k f ↔ ∃ a, o = some a ∧ c = true ∧ p = (k, f a) := by
  cases o with
  | none => simp [emitSome]
  | some a => cases c <;> simp [emitSome]

/-- A fresh issue with every field at its default and `"*all"` selected. -/
def emptyAllIssue : JiraIssue := { requested_fields := .all }

/-- C4 counterexample: with the `"*all"` selection, an issue whose
summary is the empty string still emits `"summary"` (the code emits the
summary unconditionally when selected), and an absent assignee relation
emits the placeholder entry `{"display_name": "Unassigned"}` rather than
omitting the key — refuting "empty or default fields are omitted even
when selected" for these two fields. -/
theorem c4_counterexample_empty_summary_and_unassigned :
    emptyAllIssue.summary = "" ∧
    emptyAllIssue.assignee = none ∧
    emptyAllIssue.to_simplified_dict =
      [("id", .str "0"), ("key", .str ""), ("summary", .str ""),
       ("assignee", .obj [("display_name", .str "Unassigned")])] ∧
    ("summary", JsonVal.str "") ∈ emptyAllIssue.to_simplified_dict ∧
    ("assignee", JsonVal.obj [("display_name", JsonVal.str "Unassigned")])
      ∈ emptyAllIssue.to_simplified_dict := by
  have heq : emptyAllIssue.to_simplified_dict =
      [("id", .str "0"), ("key", .str ""), ("summary", .str ""),
       ("assignee", .obj [("display_name", .str "Unassigned")])] := rfl
  refine ⟨rfl, rfl, heq, ?_, ?_⟩ <;> rw [heq] <;> simp

/-- C4 (amended): selection controls eligibility and a field holding an
empty or default value (empty string, empty list, absent relation) is
omitted even when selected — for every field except `summary` and
`assignee`: `summary` is emitted whenever selected, even when empty, and
a selected `assignee` whose relation is absent is emitted as the
placeholder `{"display_name": "Unassigned"}` instead of being omitted. -/
theorem c4_empty_default_fields_amended (i : JiraIssue) :
    (i.shouldInclude "summary" = true →
      ("summary", JsonVal.str i.summary) ∈ i.to_simplified_dict) ∧
    (i.assignee = none → i.shouldInclude "assignee" = true →
      ("assignee", JsonVal.obj [("display_name", JsonVal.str "Unassigned")])
        ∈ i.to_simplified_dict) ∧
    (i.description = none ∨ i.description = some "" →
      ∀ v, ("description", v) ∉ i.to_simplified_dict) ∧
    (i.url = none ∨ i.url = some "" →
      ∀ v, ("url", v) ∉ i.to_simplified_dict) ∧
    (i.status = none → ∀ v, ("status", v) ∉ i.to_simplified_dict) ∧
    (i.issue_type = none → ∀ v, ("issue_type", v) ∉ i.to_simplified_dict) ∧
    (i.priority = none → ∀ v, ("priority", v) ∉ i.to_simplified_dict) ∧
    (i.project = none → ∀ v, ("project", v) ∉ i.to_simplified_dict) ∧
    (i.duedate = none ∨ i.duedate = some "" →
      ∀ v, ("duedate", v) ∉ i.to_simplified_dict) ∧
    (i.resolutiondate = none ∨ i.resolutiondate = some "" →
      ∀ v, ("resolutiondate", v) ∉ i.to_simplified_dict) ∧
    (i.reporter = none → ∀ v, ("reporter", v) ∉ i.to_simplified_dict) ∧
    (i.labels = [] → ∀ v, ("labels", v) ∉ i.to_simplified_dict) ∧
    (i.components = [] → ∀ v, ("components", v) ∉ i.to_simplified_dict) ∧
    (i.created = "" → ∀ v, ("created", v) ∉ i.to_simplified_dict) ∧
    (i.updated = "" → ∀ v, ("updated", v) ∉ i.to_simplified_dict) ∧
    (i.comments = [] → ∀ v, ("comments", v) ∉ i.to_simplified_dict) ∧
    (i.worklogs = [] → ∀ v, ("worklogs", v) ∉ i.to_simplified_dict) ∧
    (i.parent = none ∨ i.parent = some [] →
      ∀ v, ("parent", v) ∉ i.to_simplified_dict) ∧
    (i.subtasks = [] → ∀ v, ("subtasks", v) ∉ i.to_simplified_dict) := by
  refine ⟨fun h => ?_, fun ha h => ?_, fun h v => ?_, fun h v => ?_,
    fun h v => ?_, fun h v => ?_, fun h v => ?_, fun h v => ?_,
    fun h v => ?_, fun h v => ?_, fun h v => ?_, fun h v => ?_,
    fun h v => ?_, fun h v => ?_, fun h v => ?_, fun h v => ?_,
    fun h v => ?_, fun h v => ?_, fun h v => ?_⟩ <;>
  first
  | (rcases h with h | h <;>
      simp [JiraIssue.to_simplified_dict, mem_emitIf, mem_emitSome, h,
        optStrTruthy, pyFalsyStr, optDictTruthy, JiraIssue.assigneeValue])
  | simp [JiraIssue.to_simplified_dict, mem_emitIf, mem_emitSome, h, ha,
      optStrTruthy, pyFalsyStr, optDictTruthy, JiraIssue.assigneeValue]
  | simp [JiraIssue.to_simplified_dict, mem_emitIf, mem_emitSome, h,
      optStrTruthy, pyFalsyStr, optDictTruthy, JiraIssue.assigneeValue]

/-- C4 witness for the amended theorem: the default issue under `"*all"`
selection emits the empty summary and the placeholder assignee, and omits
the empty labels list. -/
theorem c4_empty_default_fields_amended_witness :
    ("summary", JsonVal.str "") ∈ emptyAllIssue.to_simplified_dict ∧
    ("assignee", JsonVal.obj [("display_name", JsonVal.str "Unassigned")])
      ∈ emptyAllIssue.to_simplified_dict ∧
    ("labels", JsonVal.arr []) ∉ emptyAllIssue.to_simplified_dict :=
  ⟨(c4_empty_default_fields_amended emptyAllIssue).1 rfl,
   (c4_empty_default_fields_amended emptyAllIssue).2.1 rfl rfl,
   (c4_empty_default_fields_amended
      emptyAllIssue).2.2.2.2.2.2.2.2.2.2.2.1 rfl (JsonVal.arr [])⟩

end UserLink
